import Mathlib

/-!
Verification development for the estivision-mp multi-camera geometric pipeline:
monocular calibration (estv/devices/camera_calibrator.py), stereo calibration
(estv/devices/stereo_calibrator.py), triangulation (estv/estimators/triangulation.py)
and the stereo artifact path helper (estv/gui/main_window.py).

The Python modules are shallowly embedded over exact rationals.  External OpenCV
and numpy primitives that the code delegates to are modelled from their documented
semantics; each such model carries a doc comment naming the primitive.  Floating
point is modelled by exact rational arithmetic throughout.
-/

set_option autoImplicit false

namespace ESTV

/-- A 2D point (pixel or normalized image coordinates) over exact rationals. -/
structure V2 where
  x : ℚ
  y : ℚ
deriving DecidableEq

/-- A 3D point over exact rationals. -/
structure V3 where
  x : ℚ
  y : ℚ
  z : ℚ
deriving DecidableEq

/-- A homogeneous 4-vector over exact rationals. -/
structure V4 where
  x : ℚ
  y : ℚ
  z : ℚ
  w : ℚ
deriving DecidableEq

/-- A 3x3 matrix (camera intrinsics, rotations) with explicit entries. -/
structure M3 where
  m00 : ℚ
  m01 : ℚ
  m02 : ℚ
  m10 : ℚ
  m11 : ℚ
  m12 : ℚ
  m20 : ℚ
  m21 : ℚ
  m22 : ℚ
deriving DecidableEq

/-- A 3x4 projection matrix, stored as three homogeneous rows. -/
structure M34 where
  r0 : V4
  r1 : V4
  r2 : V4
deriving DecidableEq

/-- A 4x4 matrix (disparity-to-depth matrix q), stored as four rows. -/
structure M4 where
  r0 : V4
  r1 : V4
  r2 : V4
  r3 : V4
deriving DecidableEq

/-- The 3x3 identity matrix. -/
def idM3 : M3 := ⟨1, 0, 0, 0, 1, 0, 0, 0, 1⟩

/-- Matrix-vector product for a 3x3 matrix. -/
def mulM3V3 (m : M3) (v : V3) : V3 :=
  ⟨m.m00 * v.x + m.m01 * v.y + m.m02 * v.z,
   m.m10 * v.x + m.m11 * v.y + m.m12 * v.z,
   m.m20 * v.x + m.m21 * v.y + m.m22 * v.z⟩

/-- Rigid transform x2 = R x + t, as used for the camera-2 frame change. -/
def applyRT (r : M3) (t : V3) (v : V3) : V3 :=
  let rv := mulM3V3 r v
  ⟨rv.x + t.x, rv.y + t.y, rv.z + t.z⟩

/-- Chessboard object points of `CameraCalibrator._create_object_points`
(camera_calibrator.py lines 35-40).  The source builds
`np.mgrid[0:cols, 0:rows].T.reshape(-1, 2)` scaled by `square_size`, with Z = 0:
the flattened row-major index `n` of the transposed (rows, cols, 2) grid holds
the pair `(n % cols, n / cols)`, i.e. the X (column) axis varies fastest. -/
def create_object_points (cols rows : ℕ) (square_size : ℚ) : List V3 :=
  (List.range (rows * cols)).map
    (fun n => ⟨((n % cols : ℕ) : ℚ) * square_size, ((n / cols : ℕ) : ℚ) * square_size, 0⟩)

/-- Chessboard object points of `_make_object_points`
(stereo_calibrator.py lines 89-98): same `np.mgrid[0:cols, 0:rows].T.reshape(-1, 2)`
unrolling scaled by `square_size_m`, with Z = 0. -/
def make_object_points (cols rows : ℕ) (square_size_m : ℚ) : List V3 :=
  (List.range (rows * cols)).map
    (fun n => ⟨((n % cols : ℕ) : ℚ) * square_size_m, ((n / cols : ℕ) : ℚ) * square_size_m, 0⟩)

/-- Character class kept unchanged by the artifact-id sanitizer
(the regex class [A-Za-z0-9._-] of main_window.py line 46). -/
def safeChar (c : Char) : Bool :=
  ('A' ≤ c && c ≤ 'Z') || ('a' ≤ c && c ≤ 'z') || ('0' ≤ c && c ≤ '9') ||
    c == '.' || c == '_' || c == '-'

/-- The sanitizer re.sub applied to a device id: every character outside
[A-Za-z0-9._-] is replaced by an underscore. -/
def sanitizeId (s : String) : String :=
  s.map (fun c => if safeChar c then c else '_')

/-- The helper `_stereo_file_path` of main_window.py lines 44-50: sanitize both
camera ids, swap when the first sanitized id compares greater than the second
(Python string comparison, i.e. lexicographic on code points), and compose
`stereo_<id1>_<id2>.npz` under the data directory.  The data directory returned
by `_get_data_dir` is platform dependent and passed here as a parameter. -/
def stereo_file_path (dataDir cam1_id cam2_id : String) : String :=
  let safe1 := sanitizeId cam1_id
  let safe2 := sanitizeId cam2_id
  let p := if safe2 < safe1 then (safe2, safe1) else (safe1, safe2)
  dataDir ++ "/stereo_" ++ p.1 ++ "_" ++ p.2 ++ ".npz"

/-- Claim C6: for every board geometry with cols, rows ≥ 2 and square_size > 0,
the object-point generator produces exactly cols*rows points, every point has
Z = 0, the point at index j*cols + i is (i*square_size, j*square_size, 0) — so
the first (X/column) axis varies fastest — and the generator used by monocular
calibration and the one used by stereo calibration produce the same point set
for the same geometry.  (Both are pure Lean functions, hence deterministic and
side-effect free.) -/
theorem object_points_grid_spec (cols rows : ℕ) (s : ℚ)
    (hc : 2 ≤ cols) (hr : 2 ≤ rows) (hs : 0 < s) :
    (create_object_points cols rows s).length = cols * rows ∧
    (∀ p ∈ create_object_points cols rows s, p.z = 0) ∧
    (∀ i j, i < cols → j < rows →
      (create_object_points cols rows s).get? (j * cols + i) =
        some ⟨(i : ℚ) * s, (j : ℚ) * s, 0⟩) ∧
    create_object_points cols rows s = make_object_points cols rows s := by
  refine ⟨?_, ?_, ?_, rfl⟩
  · simp [create_object_points, Nat.mul_comm rows cols]
  · intro p hp
    obtain ⟨n, _, rfl⟩ := List.mem_map.mp hp
    rfl
  · intro i j hi hj
    have hcols : 0 < cols := by omega
    have hlt : j * cols + i < rows * cols := by
      calc j * cols + i < j * cols + cols := by omega
        _ = (j + 1) * cols := by ring
        _ ≤ rows * cols := Nat.mul_le_mul_right _ (by omega)
    have h1 : (j * cols + i) % cols = i := by
      rw [Nat.add_comm, Nat.add_mul_mod_self_right]
      exact Nat.mod_eq_of_lt hi
    have h2 : (j * cols + i) / cols = j := by
      rw [Nat.add_comm, Nat.add_mul_div_right _ _ hcols, Nat.div_eq_of_lt hi, Nat.zero_add]
    rw [create_object_points, List.get?_map, List.get?_range hlt]
    simp [h1, h2]

/-- Witness for `object_points_grid_spec` at the concrete board geometry
(6, 9) with square size 20 used by the calibrator. -/
theorem object_points_grid_spec_witness :
    (create_object_points 6 9 20).length = 6 * 9 ∧
    (∀ p ∈ create_object_points 6 9 20, p.z = 0) ∧
    (∀ i j, i < 6 → j < 9 →
      (create_object_points 6 9 20).get? (j * 6 + i) =
        some ⟨(i : ℚ) * 20, (j : ℚ) * 20, 0⟩) ∧
    create_object_points 6 9 20 = make_object_points 6 9 20 :=
  object_points_grid_spec 6 9 20 (by norm_num) (by norm_num) (by norm_num)

/-- Claim C8: the stereo artifact file path is symmetric in the two camera ids,
and equals `<dataDir>/stereo_<id1>_<id2>.npz` where id1/id2 are the two ids
after sanitization (characters outside [A-Za-z0-9._-] replaced by underscores)
sorted lexicographically (min first, max second). -/
theorem stereo_file_path_symmetry_spec (dataDir camA camB : String) :
    stereo_file_path dataDir camA camB = stereo_file_path dataDir camB camA ∧
    stereo_file_path dataDir camA camB =
      dataDir ++ "/stereo_" ++ min (sanitizeId camA) (sanitizeId camB) ++ "_" ++
        max (sanitizeId camA) (sanitizeId camB) ++ ".npz" := by
  have key : ∀ a b : String, stereo_file_path dataDir a b =
      dataDir ++ "/stereo_" ++ min (sanitizeId a) (sanitizeId b) ++ "_" ++
        max (sanitizeId a) (sanitizeId b) ++ ".npz" := by
    intro a b
    unfold stereo_file_path
    dsimp only
    by_cases h : sanitizeId b < sanitizeId a
    · rw [if_pos h, min_eq_right h.le, max_eq_left h.le]
    · rw [if_neg h, min_eq_left (not_lt.mp h), max_eq_right (not_lt.mp h)]
  refine ⟨?_, key camA camB⟩
  rw [key camA camB, key camB camA, min_comm, max_comm]

/-- Mutable attribute state of a `CameraCalibrator` instance, mirroring the
attributes assigned in `__init__` (camera_calibrator.py lines 19-32).
`board_cols`/`board_rows` are the two components of `self.board_size`;
`objp` is `self._objp`. -/
structure CalibState where
  board_cols : ℕ
  board_rows : ℕ
  square_size : ℚ
  object_points : List (List V3)
  image_points : List (List V2)
  objp : List V3
  camera_matrix : Option M3
  dist_coeffs : Option (List ℚ)
  rvecs : Option (List V3)
  tvecs : Option (List V3)
  reproj_error : Option ℚ
deriving DecidableEq

/-- Embedding of `CameraCalibrator.__init__`: board (6, 9), square size 20.0 mm, empty
accumulation lists, `_objp` generated from the board geometry, all calibration
results unset (None). -/
def initCalibrator : CalibState :=
  { board_cols := 6
  , board_rows := 9
  , square_size := 20
  , object_points := []
  , image_points := []
  , objp := create_object_points 6 9 20
  , camera_matrix := none
  , dist_coeffs := none
  , rvecs := none
  , tvecs := none
  , reproj_error := none }

/-- Embedding of `CameraCalibrator.add_chessboard_image` (lines 43-52).  The board detection
(`cv2.findChessboardCorners`) is modelled by the `detected` argument: `some
corners` when the board was found, `none` otherwise; `refine` models the
sub-pixel refinement `cv2.cornerSubPix`.  On success the pair
`(self._objp.copy(), corners2)` is appended to the accumulation lists; the
return value is the `found` flag. -/
def add_chessboard_image (refine : List V2 → List V2)
    (detected : Option (List V2)) (st : CalibState) : Bool × CalibState :=
  match detected with
  | some corners =>
      (true,
       { st with
         object_points := st.object_points ++ [st.objp]
         , image_points := st.image_points ++ [refine corners] })
  | none => (false, st)

/-- Squared L2 norm between two equally shaped point arrays: models
`cv2.norm(imgp, proj, cv2.NORM_L2) ** 2`, i.e. the sum over all points of the
squared coordinate differences. -/
def normL2Sq (a b : List V2) : ℚ :=
  ((a.zip b).map (fun q => (q.1.x - q.2.x) ^ 2 + (q.1.y - q.2.y) ^ 2)).sum

/-- Embedding of `CameraCalibrator._calc_reprojection_error` (lines 70-86), modelled at the
level of the squared RMS value: the source returns
`sqrt(total_error / total_points)`; since square roots leave the rationals we
model the radicand `total_error / total_points` (equalities of the source's
value correspond exactly to equalities of this radicand, sqrt being injective
on nonnegative reals).  `projectPt` models `cv2.projectPoints` applied to a
single object point with the given rotation vector, translation vector, camera
matrix and distortion coefficients; the source applies it to a whole
observation at once, which is its pointwise map.  Returns `none` when any
required field is unset or when the total point count is zero, mirroring the
source's `None` returns. -/
def calc_reprojection_error_sq
    (projectPt : V3 → V3 → V3 → M3 → List ℚ → V2) (st : CalibState) : Option ℚ :=
  match st.rvecs, st.tvecs, st.camera_matrix, st.dist_coeffs with
  | some rvecs, some tvecs, some mtx, some dist =>
      let quads := st.object_points.zip (st.image_points.zip (rvecs.zip tvecs))
      let total_error := (quads.map (fun q =>
        let proj := q.1.map (fun ob => projectPt ob q.2.2.1 q.2.2.2 mtx dist)
        normL2Sq q.2.1 proj)).sum
      let total_points : ℕ := (quads.map (fun q => q.1.length)).sum
      if 0 < total_points then some (total_error / (total_points : ℚ)) else none
  | _, _, _, _ => none

/-- Result bundle of the modelled `cv2.calibrateCamera` solve: RMS return
value, camera matrix, distortion coefficients and per-view rotation /
translation vectors. -/
structure SolveOut where
  ret : ℚ
  mtx : M3
  dist : List ℚ
  rvecs : List V3
  tvecs : List V3

/-- Error raised by `CameraCalibrator.calibrate` when fewer than 3 observations
have been accumulated (the `ValueError` of line 58, the spec's
`InsufficientData`). -/
inductive CalibError where
  | insufficientData
deriving DecidableEq

/-- Embedding of `CameraCalibrator.calibrate` (lines 55-67).  The nonlinear
`cv2.calibrateCamera` solve is modelled by the abstract total `solver`
argument (given the accumulated object/image points and the reversed image
shape it returns the solved parameters); `projectPt` models
`cv2.projectPoints` as in `calc_reprojection_error_sq`.  With fewer than 3
accumulated observations the `ValueError` is raised; otherwise the solved
fields are stored, the reprojection error is recomputed and the solver's RMS
return value is returned. -/
def calibrate (solver : List (List V3) → List (List V2) → ℕ × ℕ → SolveOut)
    (projectPt : V3 → V3 → V3 → M3 → List ℚ → V2)
    (image_shape : ℕ × ℕ) (st : CalibState) : Except CalibError (ℚ × CalibState) :=
  if st.object_points.length < 3 then
    .error .insufficientData
  else
    let out := solver st.object_points st.image_points (image_shape.2, image_shape.1)
    let st1 := { st with
      camera_matrix := some out.mtx
      , dist_coeffs := some out.dist
      , rvecs := some out.rvecs
      , tvecs := some out.tvecs }
    let st2 := { st1 with reproj_error := calc_reprojection_error_sq projectPt st1 }
    .ok (out.ret, st2)

/-- Contents of a saved calibration `.npz` artifact: the arrays passed to
`np.savez` in `CameraCalibrator.save` (lines 118-123). -/
structure Artifact where
  camera_matrix : M3
  dist_coeffs : Option (List ℚ)
  reproj_error : Option ℚ
deriving DecidableEq

/-- The file system is modelled as an association list from paths to npz
artifact contents. -/
abbrev FS := List (String × Artifact)

/-- Look up the artifact stored at a path. -/
def fsGet (fs : FS) (p : String) : Option Artifact :=
  (fs.find? (fun e => e.1 == p)).map Prod.snd

/-- Write (create or overwrite) the artifact at a path. -/
def fsSet (fs : FS) (p : String) (a : Artifact) : FS :=
  (p, a) :: fs.filter (fun e => !(e.1 == p))

/-- Delete the file at a path (no error when absent, like
`Path.unlink(missing_ok=True)`). -/
def fsErase (fs : FS) (p : String) : FS :=
  fs.filter (fun e => !(e.1 == p))

/-- Does a file exist at the path (`Path.exists`)? -/
def fsExists (fs : FS) (p : String) : Bool :=
  (fsGet fs p).isSome

/-- Does the string end with the given suffix?  (Computable rendering of
Python's str.endswith / the check numpy performs on save filenames.) -/
def strEndsWith (s suf : String) : Bool :=
  suf.data.isSuffixOf s.data

/-- The path `np.savez` actually writes to: numpy's documented behavior is to
append ".npz" to a string filename when it does not already end with ".npz". -/
def npzSavePath (p : String) : String :=
  if strEndsWith p ".npz" then p else p ++ ".npz"

/-- Model of `np.savez`: writes the arrays as one file at `npzSavePath p`. -/
def np_savez (fs : FS) (p : String) (a : Artifact) : FS :=
  fsSet fs (npzSavePath p) a

/-- Model of `np.load` on a string path: reads exactly the given path (numpy appends no
extension on load); `none` models the `FileNotFoundError` for a missing file. -/
def np_load (fs : FS) (p : String) : Option Artifact :=
  fsGet fs p

/-- Model of `pathlib.Path.replace`: atomic rename of `src` over `dst`; fails with
`FileNotFoundError` (modelled by `none`) when the source does not exist. -/
def path_replace (fs : FS) (src dst : String) : Option FS :=
  match fsGet fs src with
  | none => none
  | some a => some (fsSet (fsErase fs src) dst a)

/-- Outcome of `CameraCalibrator.save`: normal return, the `ValueError` when
not calibrated (line 110), the `RuntimeError` raised for a lock-acquisition
`Timeout` (lines 129-132), or the `RuntimeError` wrapping any other exception
(lines 133-137). -/
inductive SaveOutcome where
  | ok
  | notCalibratedValueError
  | lockTimeoutRuntimeError
  | runtimeError
deriving DecidableEq

/-- Embedding of `CameraCalibrator.save` (lines 107-137).  `lockAcquired` models whether
the advisory `FileLock` is acquired within the timeout (False models the
`Timeout` branch).  Following the source: guard on `self._camera_matrix is
None`; under the lock, `np.savez` to `tmp_path = str(filename) + ".tmp"`, then
`Path(tmp_path).replace(filename)`, with a `finally` block unlinking
`tmp_path` when it still exists; a rename failure propagates out of the lock
and is re-raised as `RuntimeError`.  The method never mutates any calibrator
attribute, so the state is returned unchanged. -/
def calibrator_save (st : CalibState) (filename : String) (lockAcquired : Bool)
    (fs : FS) : SaveOutcome × CalibState × FS :=
  match st.camera_matrix with
  | none => (.notCalibratedValueError, st, fs)
  | some m =>
      if lockAcquired then
        let tmp := filename ++ ".tmp"
        let fs1 := np_savez fs tmp ⟨m, st.dist_coeffs, st.reproj_error⟩
        match path_replace fs1 tmp filename with
        | some fs2 =>
            let fs3 := if fsExists fs2 tmp then fsErase fs2 tmp else fs2
            (.ok, st, fs3)
        | none =>
            let fs3 := if fsExists fs1 tmp then fsErase fs1 tmp else fs1
            (.runtimeError, st, fs3)
      else (.lockTimeoutRuntimeError, st, fs)

/-- Outcome of `CameraCalibrator.load`: the updated state on success, the
`RuntimeError` for a lock `Timeout`, or the uncaught `FileNotFoundError` from
`np.load` on a missing file. -/
inductive LoadOutcome where
  | ok (st : CalibState)
  | lockTimeoutRuntimeError
  | fileNotFoundError
deriving DecidableEq

/-- Embedding of `CameraCalibrator.load` (lines 140-151): under the lock, `np.load` the
file and set `_camera_matrix`, `_dist_coeffs` and `_reproj_error` (the latter
only when present in the artifact, else None).  No other attribute is
touched. -/
def calibrator_load (st : CalibState) (filename : String) (lockAcquired : Bool)
    (fs : FS) : LoadOutcome :=
  if lockAcquired then
    match np_load fs filename with
    | none => .fileNotFoundError
    | some a =>
        .ok { st with
          camera_matrix := some a.camera_matrix
          , dist_coeffs := a.dist_coeffs
          , reproj_error := a.reproj_error }
  else .lockTimeoutRuntimeError

/-- A trivial concrete stand-in for the camera-calibration solver, used to
instantiate theorems at concrete inputs. -/
def demoSolver : List (List V3) → List (List V2) → ℕ × ℕ → SolveOut :=
  fun _ _ _ => ⟨0, idM3, [0, 0, 0, 0, 0], [⟨0, 0, 0⟩, ⟨0, 0, 0⟩, ⟨0, 0, 0⟩],
    [⟨0, 0, 1⟩, ⟨0, 0, 1⟩, ⟨0, 0, 1⟩]⟩

/-- A trivial concrete stand-in for the point projection, used to instantiate
theorems at concrete inputs. -/
def demoProject : V3 → V3 → V3 → M3 → List ℚ → V2 :=
  fun _ _ _ _ _ => ⟨0, 0⟩

/-- A calibrator state with three accumulated observations (board pattern plus
three copies of a one-corner image observation list). -/
def demoAccum : CalibState :=
  { initCalibrator with
    object_points := List.replicate 3 (create_object_points 6 9 20)
    , image_points := List.replicate 3 [⟨1, 2⟩] }

/-- Claim C7: `add_chessboard_image` with a failed detection returns false and
leaves the whole state unchanged; with a successful detection it returns true,
appends the (board pattern, refined corners) pair to the two accumulation
lists, and modifies no calibration result field. -/
theorem add_chessboard_image_spec (refine : List V2 → List V2)
    (detected : Option (List V2)) (st : CalibState) :
    (detected = none →
      add_chessboard_image refine detected st = (false, st)) ∧
    (∀ corners, detected = some corners →
      (add_chessboard_image refine detected st).1 = true ∧
      (add_chessboard_image refine detected st).2.object_points =
        st.object_points ++ [st.objp] ∧
      (add_chessboard_image refine detected st).2.image_points =
        st.image_points ++ [refine corners] ∧
      (add_chessboard_image refine detected st).2.camera_matrix = st.camera_matrix ∧
      (add_chessboard_image refine detected st).2.dist_coeffs = st.dist_coeffs ∧
      (add_chessboard_image refine detected st).2.rvecs = st.rvecs ∧
      (add_chessboard_image refine detected st).2.tvecs = st.tvecs ∧
      (add_chessboard_image refine detected st).2.reproj_error = st.reproj_error) := by
  constructor
  · rintro rfl
    rfl
  · rintro corners rfl
    exact ⟨rfl, rfl, rfl, rfl, rfl, rfl, rfl, rfl⟩

/-- Witness for `add_chessboard_image_spec`: concrete failed and successful
detections on a fresh calibrator. -/
theorem add_chessboard_image_spec_witness :
    add_chessboard_image id none initCalibrator = (false, initCalibrator) ∧
    (add_chessboard_image id (some [⟨1, 2⟩]) initCalibrator).1 = true :=
  ⟨(add_chessboard_image_spec id none initCalibrator).1 rfl,
   ((add_chessboard_image_spec id (some [⟨1, 2⟩]) initCalibrator).2 [⟨1, 2⟩] rfl).1⟩

/-- Claim C4: `calibrate` with fewer than 3 accumulated observations raises the
insufficient-data ValueError, for every solver and image shape (hence
regardless of image content); with 3 or more observations it never raises that
error. -/
theorem calibrate_insufficient_data_spec
    (solver : List (List V3) → List (List V2) → ℕ × ℕ → SolveOut)
    (projectPt : V3 → V3 → V3 → M3 → List ℚ → V2)
    (image_shape : ℕ × ℕ) (st : CalibState) :
    (st.object_points.length < 3 →
      calibrate solver projectPt image_shape st = .error .insufficientData) ∧
    (3 ≤ st.object_points.length →
      ∀ e : CalibError, calibrate solver projectPt image_shape st ≠ .error e) := by
  constructor
  · intro h
    simp [calibrate, h]
  · intro h e
    simp [calibrate, Nat.not_lt.mpr h]

/-- Witness for `calibrate_insufficient_data_spec`: a fresh calibrator (0
observations) errors; a calibrator with 3 observations does not. -/
theorem calibrate_insufficient_data_spec_witness :
    calibrate demoSolver demoProject (480, 640) initCalibrator =
      .error .insufficientData ∧
    ∀ e : CalibError, calibrate demoSolver demoProject (480, 640) demoAccum ≠ .error e :=
  ⟨(calibrate_insufficient_data_spec demoSolver demoProject (480, 640) initCalibrator).1
      (by decide),
   (calibrate_insufficient_data_spec demoSolver demoProject (480, 640) demoAccum).2
      (by decide)⟩

/-- The invariant of claim C10: the two accumulation lists have equal length,
the cached board pattern `_objp` is the object-point set of the calibrator's
board geometry, and every stored object-point array equals that pattern. -/
def CalibInv (st : CalibState) : Prop :=
  st.object_points.length = st.image_points.length ∧
  st.objp = create_object_points st.board_cols st.board_rows st.square_size ∧
  ∀ o ∈ st.object_points, o = create_object_points st.board_cols st.board_rows st.square_size

/-- The save method never modifies the calibrator state. -/
theorem calibrator_save_state_eq (st : CalibState) (filename : String)
    (lockAcquired : Bool) (fs : FS) :
    (calibrator_save st filename lockAcquired fs).2.1 = st := by
  unfold calibrator_save
  cases st.camera_matrix with
  | none => rfl
  | some m =>
      cases lockAcquired with
      | false => rfl
      | true =>
          dsimp only
          cases path_replace (np_savez fs (filename ++ ".tmp")
              ⟨m, st.dist_coeffs, st.reproj_error⟩) (filename ++ ".tmp") filename <;> rfl

/-- Claim C10: the invariant holds initially and is preserved by every public
operation: `add_chessboard_image`, `calibrate` (on success; on error the state
is returned unchanged), `save` (which never modifies the state) and `load`. -/
theorem calibrator_invariant_spec :
    CalibInv initCalibrator ∧
    (∀ refine detected st, CalibInv st →
      CalibInv (add_chessboard_image refine detected st).2) ∧
    (∀ solver projectPt image_shape st r st2, CalibInv st →
      calibrate solver projectPt image_shape st = .ok (r, st2) → CalibInv st2) ∧
    (∀ filename lockAcquired fs st, CalibInv st →
      CalibInv (calibrator_save st filename lockAcquired fs).2.1) ∧
    (∀ filename lockAcquired fs st st2, CalibInv st →
      calibrator_load st filename lockAcquired fs = .ok st2 → CalibInv st2) := by
  refine ⟨⟨rfl, rfl, ?_⟩, ?_, ?_, ?_, ?_⟩
  · intro o ho
    simp [initCalibrator] at ho
  · rintro refine detected st ⟨h1, h2, h3⟩
    cases detected with
    | none => exact ⟨h1, h2, h3⟩
    | some corners =>
        refine ⟨?_, h2, ?_⟩
        · simp [add_chessboard_image, h1]
        · intro o ho
          simp only [add_chessboard_image, List.mem_append, List.mem_singleton] at ho
          rcases ho with ho | rfl
          · exact h3 o ho
          · exact h2
  · rintro solver projectPt image_shape st r st2 ⟨h1, h2, h3⟩ hok
    unfold calibrate at hok
    by_cases hlt : st.object_points.length < 3
    · rw [if_pos hlt] at hok
      exact absurd hok (by simp)
    · rw [if_neg hlt] at hok
      dsimp only at hok
      injection hok with hok
      injection hok with _ hok
      subst hok
      exact ⟨h1, h2, h3⟩
  · intro filename lockAcquired fs st h
    rw [calibrator_save_state_eq]
    exact h
  · rintro filename lockAcquired fs st st2 ⟨h1, h2, h3⟩ hok
    unfold calibrator_load at hok
    cases lockAcquired with
    | false => exact absurd hok (by simp)
    | true =>
        rw [if_pos rfl] at hok
        cases hnp : np_load fs filename with
        | none => rw [hnp] at hok; exact absurd hok (by simp)
        | some a =>
            rw [hnp] at hok
            injection hok with hok
            subst hok
            exact ⟨h1, h2, h3⟩

/-- Witness for `calibrator_invariant_spec`: the theorem has no top-level
hypotheses other than universally quantified implications; instantiate the
add-observation branch at a concrete successful detection on the fresh
calibrator. -/
theorem calibrator_invariant_spec_witness :
    CalibInv (add_chessboard_image id (some [⟨1, 2⟩]) initCalibrator).2 :=
  calibrator_invariant_spec.2.1 id (some [⟨1, 2⟩]) initCalibrator
    calibrator_invariant_spec.1

/-- Specification-side total squared reprojection error: for each observation
(with its per-view rotation/translation vectors), the sum over each object
point paired with its observed image point of the squared distance between the
point's reprojection and the observation. -/
def specTotalSqError (projectPt : V3 → V3 → V3 → M3 → List ℚ → V2)
    (mtx : M3) (dist : List ℚ)
    (quads : List (List V3 × List V2 × V3 × V3)) : ℚ :=
  (quads.map (fun q =>
    ((q.1.zip q.2.1).map (fun pq =>
      let pr := projectPt pq.1 q.2.2.1 q.2.2.2 mtx dist
      (pr.x - pq.2.x) ^ 2 + (pr.y - pq.2.y) ^ 2)).sum)).sum

/-- Specification-side total point count across all observations. -/
def totalPointCount (quads : List (List V3 × List V2 × V3 × V3)) : ℕ :=
  (quads.map (fun q => q.1.length)).sum

/-- The squared L2 norm between an image-point array and the pointwise
projection of an object-point array equals the sum over paired points of the
squared distance between projection and observation. -/
theorem normL2Sq_map (f : V3 → V2) :
    ∀ (a : List V3) (b : List V2),
      normL2Sq b (a.map f) =
        ((a.zip b).map (fun pq =>
          ((f pq.1).x - pq.2.x) ^ 2 + ((f pq.1).y - pq.2.y) ^ 2)).sum
  | [], b => by simp [normL2Sq]
  | x :: a, [] => by simp [normL2Sq]
  | x :: a, y :: b => by
      have ih := normL2Sq_map f a b
      simp only [List.map_cons, List.zip_cons_cons, normL2Sq] at ih ⊢
      rw [List.sum_cons, List.sum_cons, ih]
      ring_nf

/-- Claim C5: for a calibrated state whose per-view pose lists align with the
accumulated observations, the (squared) RMS reprojection error computed by
`_calc_reprojection_error` equals the sum, over every stored observation and
every point, of the squared distance between the reprojection of the object
point (through the solved intrinsics and that observation's pose) and the
observed image point, divided by the total point count across all
observations.  (The source applies sqrt to both sides; equality of the
radicands is equivalent.) -/
theorem calc_reprojection_error_formula_spec
    (projectPt : V3 → V3 → V3 → M3 → List ℚ → V2) (st : CalibState)
    (rvecs tvecs : List V3) (mtx : M3) (dist : List ℚ)
    (hr : st.rvecs = some rvecs) (ht : st.tvecs = some tvecs)
    (hm : st.camera_matrix = some mtx) (hd : st.dist_coeffs = some dist)
    (hl1 : st.image_points.length = st.object_points.length)
    (hl2 : rvecs.length = st.object_points.length)
    (hl3 : tvecs.length = st.object_points.length)
    (hpos : 0 < totalPointCount
      (st.object_points.zip (st.image_points.zip (rvecs.zip tvecs)))) :
    calc_reprojection_error_sq projectPt st =
      some (specTotalSqError projectPt mtx dist
              (st.object_points.zip (st.image_points.zip (rvecs.zip tvecs))) /
            (totalPointCount
              (st.object_points.zip (st.image_points.zip (rvecs.zip tvecs))) : ℚ)) := by
  unfold calc_reprojection_error_sq
  rw [hr, ht, hm, hd]
  dsimp only
  rw [totalPointCount] at hpos
  rw [if_pos hpos]
  have herr : ∀ q : List V3 × List V2 × V3 × V3,
      normL2Sq q.2.1 (q.1.map (fun ob => projectPt ob q.2.2.1 q.2.2.2 mtx dist)) =
        ((q.1.zip q.2.1).map (fun pq =>
          let pr := projectPt pq.1 q.2.2.1 q.2.2.2 mtx dist
          (pr.x - pq.2.x) ^ 2 + (pr.y - pq.2.y) ^ 2)).sum := by
    intro q
    exact normL2Sq_map (fun ob => projectPt ob q.2.2.1 q.2.2.2 mtx dist) q.1 q.2.1
  rw [specTotalSqError, totalPointCount]
  congr 1
  congr 1
  exact congrArg List.sum (List.map_congr_left (fun q _ => herr q))

/-- A calibrated state with one observation of a single point, used to witness
the reprojection-error formula. -/
def demoCalcState : CalibState :=
  { initCalibrator with
    object_points := [[⟨0, 0, 0⟩]]
    , image_points := [[⟨1, 2⟩]]
    , camera_matrix := some idM3
    , dist_coeffs := some []
    , rvecs := some [⟨0, 0, 0⟩]
    , tvecs := some [⟨0, 0, 0⟩] }

/-- Witness for `calc_reprojection_error_formula_spec` at a concrete
one-observation state. -/
theorem calc_reprojection_error_formula_spec_witness :
    calc_reprojection_error_sq demoProject demoCalcState =
      some (specTotalSqError demoProject idM3 []
              (demoCalcState.object_points.zip
                (demoCalcState.image_points.zip
                  ([⟨0, 0, 0⟩].zip [⟨0, 0, 0⟩]))) /
            (totalPointCount
              (demoCalcState.object_points.zip
                (demoCalcState.image_points.zip
                  ([⟨0, 0, 0⟩].zip [⟨0, 0, 0⟩]))) : ℚ)) :=
  calc_reprojection_error_formula_spec demoProject demoCalcState
    [⟨0, 0, 0⟩] [⟨0, 0, 0⟩] idM3 []
    rfl rfl rfl rfl rfl rfl rfl (by decide)

/-- A calibrated state reached after a successful calibrate call, used as the
failing input for the persistence claims. -/
def demoCalibrated : CalibState :=
  { initCalibrator with
    camera_matrix := some idM3
    , dist_coeffs := some [0, 0, 0, 0, 0]
    , reproj_error := some 1 }

/-- The artifact `save` writes for `demoCalibrated`. -/
def demoArtifact : Artifact := ⟨idM3, some [0, 0, 0, 0, 0], some 1⟩

/-- Claim C1 (code bug, evaluated at the failing input): saving a calibrated
state to "calib.npz" on an empty file system never reaches a successful atomic
rename.  `np.savez` appends ".npz" to the temporary path "calib.npz.tmp" and
therefore writes "calib.npz.tmp.npz", so `Path("calib.npz.tmp").replace(...)`
raises FileNotFoundError; the call returns the wrapped RuntimeError, the
destination "calib.npz" is never written, and the actually written temporary
artifact "calib.npz.tmp.npz" is left behind (the finally block only unlinks
"calib.npz.tmp", which does not exist).  The lock-timeout branch does raise
its distinct RuntimeError. -/
theorem save_rename_bug :
    calibrator_save demoCalibrated "calib.npz" true [] =
      (.runtimeError, demoCalibrated, [("calib.npz.tmp.npz", demoArtifact)]) ∧
    fsGet (calibrator_save demoCalibrated "calib.npz" true []).2.2 "calib.npz" = none ∧
    (calibrator_save demoCalibrated "calib.npz" false []).1 = .lockTimeoutRuntimeError := by
  refine ⟨?_, ?_, ?_⟩ <;> rfl

/-- Claim C2 (code bug, evaluated at the failing input): the save-then-load
round trip fails: the save call does not return normally, and a subsequent
load of "calib.npz" on the resulting file system raises FileNotFoundError
instead of restoring the calibration parameters. -/
theorem save_load_roundtrip_bug :
    (calibrator_save demoCalibrated "calib.npz" true []).1 ≠ .ok ∧
    calibrator_load initCalibrator "calib.npz" true
      (calibrator_save demoCalibrated "calib.npz" true []).2.2 =
        .fileNotFoundError := by
  refine ⟨?_, ?_⟩
  · decide
  · rfl

/-- The OpenCV flag value cv2.CALIB_FIX_INTRINSIC (bit 8, value 256). -/
def CALIB_FIX_INTRINSIC : ℕ := 256

/-- Result bundle of the modelled `cv2.stereoCalibrate` call: RMS, the two
cameras' (possibly refined) intrinsics, the relative rotation/translation and
the essential/fundamental matrices. -/
structure StereoSolveOut where
  rms : ℚ
  k1 : M3
  d1 : List ℚ
  k2 : M3
  d2 : List ℚ
  r : M3
  t : V3
  e : M3
  f : M3

/-- Model of `cv2.stereoCalibrate`, modelled from its documented semantics: when the
flags contain CALIB_FIX_INTRINSIC (bit 8), cameraMatrix1/2 and distCoeffs1/2
are used as-is and returned unchanged, and only the extrinsics are solved;
without that flag the solver may also refine the intrinsics.  The numerical
extrinsic solve and the intrinsic refinement are abstract parameters
(`extSolver`, `refiner`). -/
def cv2_stereoCalibrate
    (extSolver : List (List V3) → List (List V2) → List (List V2) →
      M3 → List ℚ → M3 → List ℚ → ℕ × ℕ → ℚ × M3 × V3 × M3 × M3)
    (refiner : M3 → List ℚ → M3 → List ℚ → M3 × List ℚ × M3 × List ℚ)
    (obj_points : List (List V3)) (img_points1 img_points2 : List (List V2))
    (k1 : M3) (d1 : List ℚ) (k2 : M3) (d2 : List ℚ)
    (image_size : ℕ × ℕ) (flags : ℕ) : StereoSolveOut :=
  let intr := if flags.testBit 8 then (k1, d1, k2, d2) else refiner k1 d1 k2 d2
  let ext := extSolver obj_points img_points1 img_points2
    intr.1 intr.2.1 intr.2.2.1 intr.2.2.2 image_size
  ⟨ext.1, intr.1, intr.2.1, intr.2.2.1, intr.2.2.2, ext.2.1, ext.2.2.1,
    ext.2.2.2.1, ext.2.2.2.2⟩

/-- Result of the modelled `cv2.stereoRectify` call: rectification rotations,
rectified projection matrices and the disparity-to-depth matrix. -/
structure RectifyOut where
  r1 : M3
  r2 : M3
  p1 : M34
  p2 : M34
  q : M4

/-- The `StereoParams` dataclass of stereo_calibrator.py lines 11-38: the two
cameras' intrinsics as used, the relative pose r, t (camera-1 frame to
camera-2 frame), the rectification outputs, the solve RMS, and the board /
camera metadata. -/
structure StereoParams where
  k1 : M3
  d1 : List ℚ
  k2 : M3
  d2 : List ℚ
  r : M3
  t : V3
  r1 : M3
  r2 : M3
  p1 : M34
  p2 : M34
  q : M4
  rms : ℚ
  board_cols : ℕ
  board_rows : ℕ
  square_size_m : ℚ
  cam1_id : String
  cam2_id : String
  image_size : ℕ × ℕ
deriving DecidableEq

/-- Embedding of `stereo_calibrate` (stereo_calibrator.py lines 101-195): after the two
length assertions (violation modelled by `none`), regenerate the shared
object-point set for every frame, call `cv2.stereoCalibrate` on copies of the
caller's intrinsic arrays with `flags = cv2.CALIB_FIX_INTRINSIC`, derive the
rectification outputs via `cv2.stereoRectify` (abstract `rectifier`
parameter), and return the assembled `StereoParams`.  Because the source
passes `k1.copy()` etc. to the solver, the caller's arrays are never mutated;
in this pure embedding that is reflected by the inputs being values. -/
def stereo_calibrate
    (extSolver : List (List V3) → List (List V2) → List (List V2) →
      M3 → List ℚ → M3 → List ℚ → ℕ × ℕ → ℚ × M3 × V3 × M3 × M3)
    (refiner : M3 → List ℚ → M3 → List ℚ → M3 × List ℚ × M3 × List ℚ)
    (rectifier : M3 → List ℚ → M3 → List ℚ → ℕ × ℕ → M3 → V3 → RectifyOut)
    (img_points1 img_points2 : List (List V2))
    (board_cols board_rows : ℕ) (square_size_m : ℚ)
    (k1 : M3) (d1 : List ℚ) (k2 : M3) (d2 : List ℚ)
    (image_size : ℕ × ℕ) (cam1_id cam2_id : String) : Option StereoParams :=
  if img_points1.length = img_points2.length ∧ 1 ≤ img_points1.length then
    let objp := make_object_points board_cols board_rows square_size_m
    let obj_points := List.replicate img_points1.length objp
    let flags := CALIB_FIX_INTRINSIC
    let out := cv2_stereoCalibrate extSolver refiner obj_points
      img_points1 img_points2 k1 d1 k2 d2 image_size flags
    let rect := rectifier out.k1 out.d1 out.k2 out.d2 image_size out.r out.t
    some
      { k1 := out.k1
      , d1 := out.d1
      , k2 := out.k2
      , d2 := out.d2
      , r := out.r
      , t := out.t
      , r1 := rect.r1
      , r2 := rect.r2
      , p1 := rect.p1
      , p2 := rect.p2
      , q := rect.q
      , rms := out.rms
      , board_cols := board_cols
      , board_rows := board_rows
      , square_size_m := square_size_m
      , cam1_id := cam1_id
      , cam2_id := cam2_id
      , image_size := image_size }
  else none

/-- Claim C9: for every behavior of the underlying solvers and all valid
paired observations, the stereo solve holds both cameras' intrinsics fixed:
the k1, d1, k2, d2 fields of the returned StereoParameters equal the supplied
intrinsics (and, the embedding being pure over values passed as copies, the
caller's arrays are not mutated). -/
theorem stereo_calibrate_fix_intrinsic_spec
    (extSolver : List (List V3) → List (List V2) → List (List V2) →
      M3 → List ℚ → M3 → List ℚ → ℕ × ℕ → ℚ × M3 × V3 × M3 × M3)
    (refiner : M3 → List ℚ → M3 → List ℚ → M3 × List ℚ × M3 × List ℚ)
    (rectifier : M3 → List ℚ → M3 → List ℚ → ℕ × ℕ → M3 → V3 → RectifyOut)
    (img_points1 img_points2 : List (List V2))
    (board_cols board_rows : ℕ) (square_size_m : ℚ)
    (k1 : M3) (d1 : List ℚ) (k2 : M3) (d2 : List ℚ)
    (image_size : ℕ × ℕ) (cam1_id cam2_id : String) (ps : StereoParams)
    (hps : stereo_calibrate extSolver refiner rectifier img_points1 img_points2
      board_cols board_rows square_size_m k1 d1 k2 d2 image_size
      cam1_id cam2_id = some ps) :
    ps.k1 = k1 ∧ ps.d1 = d1 ∧ ps.k2 = k2 ∧ ps.d2 = d2 := by
  unfold stereo_calibrate at hps
  by_cases h : img_points1.length = img_points2.length ∧ 1 ≤ img_points1.length
  · rw [if_pos h] at hps
    have hflag : Nat.testBit CALIB_FIX_INTRINSIC 8 = true := by decide
    simp only [cv2_stereoCalibrate, hflag, if_true] at hps
    injection hps with hps
    subst hps
    exact ⟨rfl, rfl, rfl, rfl⟩
  · rw [if_neg h] at hps
    exact absurd hps (by simp)

/-- A trivial concrete extrinsic solver used to instantiate the stereo
theorems. -/
def demoExtSolver : List (List V3) → List (List V2) → List (List V2) →
    M3 → List ℚ → M3 → List ℚ → ℕ × ℕ → ℚ × M3 × V3 × M3 × M3 :=
  fun _ _ _ _ _ _ _ _ => (0, idM3, ⟨1, 0, 0⟩, idM3, idM3)

/-- A trivial concrete intrinsic refiner used to instantiate the stereo
theorems (never reached under FIX_INTRINSIC). -/
def demoRefiner : M3 → List ℚ → M3 → List ℚ → M3 × List ℚ × M3 × List ℚ :=
  fun k1 d1 k2 d2 => (k1, d1, k2, d2)

/-- A trivial concrete rectifier used to instantiate the stereo theorems. -/
def demoRectifier : M3 → List ℚ → M3 → List ℚ → ℕ × ℕ → M3 → V3 → RectifyOut :=
  fun _ _ _ _ _ _ _ =>
    ⟨idM3, idM3, ⟨⟨1, 0, 0, 0⟩, ⟨0, 1, 0, 0⟩, ⟨0, 0, 1, 0⟩⟩,
      ⟨⟨1, 0, 0, 0⟩, ⟨0, 1, 0, 0⟩, ⟨0, 0, 1, 0⟩⟩,
      ⟨⟨1, 0, 0, 0⟩, ⟨0, 1, 0, 0⟩, ⟨0, 0, 1, 0⟩, ⟨0, 0, 0, 1⟩⟩⟩

/-- Witness for `stereo_calibrate_fix_intrinsic_spec` at one concrete frame
pair and concrete intrinsics. -/
theorem stereo_calibrate_fix_intrinsic_spec_witness :
    ∃ ps : StereoParams,
      stereo_calibrate demoExtSolver demoRefiner demoRectifier
        [[⟨1, 2⟩]] [[⟨3, 4⟩]] 6 9 (1/50) idM3 [0, 0, 0, 0, 0] idM3 []
        (640, 480) "camA" "camB" = some ps ∧
      (ps.k1 = idM3 ∧ ps.d1 = [0, 0, 0, 0, 0] ∧ ps.k2 = idM3 ∧ ps.d2 = []) := by
  refine ⟨_, rfl, ?_⟩
  exact stereo_calibrate_fix_intrinsic_spec demoExtSolver demoRefiner demoRectifier
    [[⟨1, 2⟩]] [[⟨3, 4⟩]] 6 9 (1/50) idM3 [0, 0, 0, 0, 0] idM3 []
    (640, 480) "camA" "camB" _ rfl

/-- One fixed-point step of OpenCV's iterative distortion compensation, for
the 5-coefficient distortion model (k1, k2, p1, p2, k3; missing trailing
coefficients read as 0): given the initial normalized coordinates (x0, y0) and
the current iterate (x, y), divide out the radial factor and subtract the
tangential deltas. -/
def undistortStep (d : List ℚ) (x0 y0 x y : ℚ) : ℚ × ℚ :=
  let dk1 := d.getD 0 0
  let dk2 := d.getD 1 0
  let dp1 := d.getD 2 0
  let dp2 := d.getD 3 0
  let dk3 := d.getD 4 0
  let r2 := x * x + y * y
  let icdist := 1 / (1 + ((dk3 * r2 + dk2) * r2 + dk1) * r2)
  let deltaX := 2 * dp1 * x * y + dp2 * (r2 + 2 * x * x)
  let deltaY := dp1 * (r2 + 2 * y * y) + 2 * dp2 * x * y
  ((x0 - deltaX) * icdist, (y0 - deltaY) * icdist)

/-- Iterated distortion compensation starting from (x0, y0). -/
def undistortIter (d : List ℚ) (x0 y0 : ℚ) : ℕ → ℚ × ℚ
  | 0 => (x0, y0)
  | n + 1 =>
      let xy := undistortIter d x0 y0 n
      undistortStep d x0 y0 xy.1 xy.2

/-- Model of `cv2.undistortPoints(pts, K, d)` with no R/P arguments, modelled from the
OpenCV implementation: invert the pinhole intrinsics (x0 = (u - cx)/fx,
y0 = (v - cy)/fy; OpenCV's camera model carries no skew), then run the default
5 compensation iterations, returning normalized camera coordinates. -/
def undistortPoint (k : M3) (d : List ℚ) (p : V2) : V2 :=
  let x0 := (p.x - k.m02) / k.m00
  let y0 := (p.y - k.m12) / k.m11
  let xy := undistortIter d x0 y0 5
  ⟨xy.1, xy.2⟩

/-- One row of the DLT system: c * (third row of P) - (given row of P). -/
def dltRow (c : ℚ) (pr2 prr : V4) : List ℚ :=
  [c * pr2.x - prr.x, c * pr2.y - prr.y, c * pr2.z - prr.z, c * pr2.w - prr.w]

/-- The 4x4 homogeneous DLT system built by cv2.triangulatePoints for one
correspondence (x1, y1) / (x2, y2): rows x1*P1[2]-P1[0], y1*P1[2]-P1[1],
x2*P2[2]-P2[0], y2*P2[2]-P2[1]. -/
def dltRows (p1 p2 : M34) (q1 q2 : V2) : List (List ℚ) :=
  [dltRow q1.x p1.r2 p1.r0, dltRow q1.y p1.r2 p1.r1,
   dltRow q2.x p2.r2 p2.r0, dltRow q2.y p2.r2 p2.r1]

/-- Determinant of a 3x3 matrix given entrywise. -/
def det3q (a b c d e f g h i : ℚ) : ℚ :=
  a * (e * i - f * h) - b * (d * i - f * g) + c * (d * h - e * g)

/-- Minor of a 4x4 matrix (as a list of rows): determinant after deleting row
r and column c. -/
def minorDet (m : List (List ℚ)) (r c : ℕ) : ℚ :=
  match (m.eraseIdx r).map (fun row => row.eraseIdx c) with
  | [[a, b, c'], [d, e, f], [g, h, i]] => det3q a b c' d e f g h i
  | _ => 0

/-- Signed cofactor of a 4x4 matrix. -/
def cof (m : List (List ℚ)) (r c : ℕ) : ℚ :=
  (if (r + c) % 2 = 0 then 1 else -1) * minorDet m r c

/-- Column c of the adjugate of a 4x4 matrix: a null vector of the matrix
whenever its determinant vanishes and the column is nonzero. -/
def adjColumn (m : List (List ℚ)) (c : ℕ) : V4 :=
  ⟨cof m c 0, cof m c 1, cof m c 2, cof m c 3⟩

/-- Is the homogeneous 4-vector identically zero? -/
def isZeroV4 (v : V4) : Bool :=
  v.x == 0 && v.y == 0 && v.z == 0 && v.w == 0

/-- Model of `cv2.triangulatePoints` for a single correspondence, modelled from its
documented DLT semantics: build the 4x4 homogeneous system and return a null
vector of it (the first nonzero adjugate column; zero when the system has full
rank or rank below 3).  OpenCV returns the right singular vector of the
smallest singular value, which for an exactly consistent rank-3 system spans
the same one-dimensional null space; the caller divides by the last
coordinate, cancelling the scale. -/
def cv2_triangulatePoint (p1 p2 : M34) (q1 q2 : V2) : V4 :=
  let m := dltRows p1 p2 q1 q2
  let c0 := adjColumn m 0
  if !(isZeroV4 c0) then c0 else
  let c1 := adjColumn m 1
  if !(isZeroV4 c1) then c1 else
  let c2 := adjColumn m 2
  if !(isZeroV4 c2) then c2 else adjColumn m 3

/-- The reference projection matrix P1 = [I | 0] fixed at construction. -/
def hstackI0 : M34 :=
  ⟨⟨1, 0, 0, 0⟩, ⟨0, 1, 0, 0⟩, ⟨0, 0, 1, 0⟩⟩

/-- The camera-2 projection matrix P2 = [R | T] fixed at construction. -/
def hstackRT (r : M3) (t : V3) : M34 :=
  ⟨⟨r.m00, r.m01, r.m02, t.x⟩, ⟨r.m10, r.m11, r.m12, t.y⟩,
    ⟨r.m20, r.m21, r.m22, t.z⟩⟩

/-- The `OpenCVTriangulator` object: the stereo parameters plus the two
projection matrices computed in `__init__` (triangulation.py lines 12-16;
`p1mat`/`p2mat` are the source's `_p1`/`_p2`). -/
structure OpenCVTriangulator where
  params : StereoParams
  p1mat : M34
  p2mat : M34

/-- Embedding of `OpenCVTriangulator.__init__`: store the parameters and fix
P1 = [I | 0] and P2 = [R | T]. -/
def OpenCVTriangulator.init (params : StereoParams) : OpenCVTriangulator :=
  ⟨params, hstackI0, hstackRT params.r params.t⟩

/-- Embedding of `OpenCVTriangulator.triangulate` (triangulation.py lines 19-55): assert
equal input shapes (violation modelled by `none`); undistort each pixel list
with that camera's own intrinsics and distortion; run the DLT per
correspondence; normalize the homogeneous result by its last coordinate; and
flag a point valid exactly when its depth is strictly positive in camera 1's
frame and, after transforming with (R, T), in camera 2's frame.  Positions are
produced for all input points. -/
def OpenCVTriangulator.triangulate (tr : OpenCVTriangulator)
    (pts1_px pts2_px : List V2) : Option (List V3 × List Bool) :=
  if pts1_px.length = pts2_px.length then
    let p := tr.params
    let pts1 := pts1_px.map (undistortPoint p.k1 p.d1)
    let pts2 := pts2_px.map (undistortPoint p.k2 p.d2)
    let xh := (pts1.zip pts2).map
      (fun q => cv2_triangulatePoint tr.p1mat tr.p2mat q.1 q.2)
    let x := xh.map (fun v => (⟨v.x / v.w, v.y / v.w, v.z / v.w⟩ : V3))
    let mask := x.map
      (fun v => decide (0 < v.z) && decide (0 < (applyRT p.r p.t v).z))
    some (x, mask)
  else none

/-- The position list produced by `triangulate` on equal-length inputs
(the composed undistort / DLT / normalize pipeline). -/
def triXs (params : StereoParams) (pts1 pts2 : List V2) : List V3 :=
  (((pts1.map (undistortPoint params.k1 params.d1)).zip
      (pts2.map (undistortPoint params.k2 params.d2))).map
    (fun q => cv2_triangulatePoint hstackI0 (hstackRT params.r params.t) q.1 q.2)).map
    (fun v => ⟨v.x / v.w, v.y / v.w, v.z / v.w⟩)

/-- The validity mask produced by `triangulate` on equal-length inputs. -/
def triMask (params : StereoParams) (pts1 pts2 : List V2) : List Bool :=
  (triXs params pts1 pts2).map
    (fun v => decide (0 < v.z) && decide (0 < (applyRT params.r params.t v).z))

/-- Claim C3: for a triangulator constructed from stereo parameters and
equal-length pixel inputs: camera 1 is the reference frame with projection
matrix [I | 0] and camera 2 uses [R | T]; each pixel is undistorted with its
own camera's intrinsics and distortion; every returned position is the
homogeneous DLT result normalized by its last coordinate; the validity mask at
an index is true exactly when the returned position has strictly positive
depth in camera 1's frame and, transformed by (R, T), in camera 2's frame; and
positions are returned for all input points (the output lists have the full
input length, with invalid points still populated). -/
theorem triangulate_spec (params : StereoParams) (pts1 pts2 : List V2)
    (h : pts1.length = pts2.length) :
    (OpenCVTriangulator.init params).p1mat = hstackI0 ∧
    (OpenCVTriangulator.init params).p2mat = hstackRT params.r params.t ∧
    ∃ xs mask,
      (OpenCVTriangulator.init params).triangulate pts1 pts2 = some (xs, mask) ∧
      xs.length = pts1.length ∧
      mask.length = pts1.length ∧
      (∀ i a b, pts1.get? i = some a → pts2.get? i = some b →
        xs.get? i = some
          (let xh := cv2_triangulatePoint hstackI0 (hstackRT params.r params.t)
            (undistortPoint params.k1 params.d1 a)
            (undistortPoint params.k2 params.d2 b)
          (⟨xh.x / xh.w, xh.y / xh.w, xh.z / xh.w⟩ : V3))) ∧
      (∀ i v, xs.get? i = some v →
        (mask.get? i = some true ↔
          0 < v.z ∧ 0 < (applyRT params.r params.t v).z)) := by
  refine ⟨rfl, rfl, triXs params pts1 pts2, triMask params pts1 pts2,
    ?_, ?_, ?_, ?_, ?_⟩
  · unfold OpenCVTriangulator.triangulate
    rw [if_pos h]
    rfl
  · simp [triXs, List.length_zip, h]
  · simp [triMask, triXs, List.length_zip, h]
  · intro i a b ha hb
    unfold triXs
    rw [List.get?_map, List.get?_map]
    rw [(List.get?_zip_eq_some (pts1.map (undistortPoint params.k1 params.d1))
          (pts2.map (undistortPoint params.k2 params.d2))
          (undistortPoint params.k1 params.d1 a,
           undistortPoint params.k2 params.d2 b) i).mpr
        ⟨by rw [List.get?_map, ha]; rfl, by rw [List.get?_map, hb]; rfl⟩]
    rfl
  · intro i v hv
    unfold triMask
    rw [List.get?_map, hv]
    simp only [Option.map_some', Option.some.injEq]
    rw [Bool.and_eq_true, decide_eq_true_eq, decide_eq_true_eq]

/-- A degenerate-free concrete stereo parameter set: identity intrinsics, no
distortion, identity rotation, unit baseline along X. -/
def demoStereoParams : StereoParams :=
  { k1 := idM3
  , d1 := []
  , k2 := idM3
  , d2 := []
  , r := idM3
  , t := ⟨-1, 0, 0⟩
  , r1 := idM3
  , r2 := idM3
  , p1 := hstackI0
  , p2 := hstackRT idM3 ⟨-1, 0, 0⟩
  , q := ⟨⟨1, 0, 0, 0⟩, ⟨0, 1, 0, 0⟩, ⟨0, 0, 1, 0⟩, ⟨0, 0, 0, 1⟩⟩
  , rms := 0
  , board_cols := 6
  , board_rows := 9
  , square_size_m := 1/50
  , cam1_id := "camA"
  , cam2_id := "camB"
  , image_size := (640, 480) }

/-- Witness for `triangulate_spec` at a concrete one-point input pair on the
demo stereo rig. -/
theorem triangulate_spec_witness :
    (OpenCVTriangulator.init demoStereoParams).p1mat = hstackI0 ∧
    (OpenCVTriangulator.init demoStereoParams).p2mat =
      hstackRT demoStereoParams.r demoStereoParams.t ∧
    ∃ xs mask,
      (OpenCVTriangulator.init demoStereoParams).triangulate
        [⟨0, 0⟩] [⟨1/2, 0⟩] = some (xs, mask) ∧
      xs.length = [(⟨0, 0⟩ : V2)].length ∧
      mask.length = [(⟨0, 0⟩ : V2)].length ∧
      (∀ i a b, [(⟨0, 0⟩ : V2)].get? i = some a →
        [(⟨1/2, 0⟩ : V2)].get? i = some b →
        xs.get? i = some
          (let xh := cv2_triangulatePoint hstackI0
            (hstackRT demoStereoParams.r demoStereoParams.t)
            (undistortPoint demoStereoParams.k1 demoStereoParams.d1 a)
            (undistortPoint demoStereoParams.k2 demoStereoParams.d2 b)
          (⟨xh.x / xh.w, xh.y / xh.w, xh.z / xh.w⟩ : V3))) ∧
      (∀ i v, xs.get? i = some v →
        (mask.get? i = some true ↔
          0 < v.z ∧ 0 < (applyRT demoStereoParams.r demoStereoParams.t v).z)) :=
  triangulate_spec demoStereoParams [⟨0, 0⟩] [⟨1/2, 0⟩] rfl

end ESTV
